import Mathlib

/-!
Verification of the cosinnus-cloud reconciliation layer.

This file gives a shallow embedding, in Lean 4, of the parts of the
cosinnus-cloud code base that the specification's testable properties talk
about:

* the retry executor of hooks.py (submit_with_retry, nc_req_callback),
* the unique-name generator of hooks.py (generate_group_nextcloud_field),
* the remote-API response classification of utils/nextcloud.py
  (_response_or_raise, create_group, create_group_folder,
  rename_group_and_group_folder),
* the group-rename save hook of hooks.py
  (rename_nextcloud_groupfolder_on_group_rename),
* the read path of utils/nextcloud.py (list_group_folder_files,
  list_user_group_folders_files, parse_cloud_files_search_response).

Python strings are modelled as lists of characters (List Char, abbreviated
Str below); machine-level HTTP traffic is modelled by passing the remote
responses in as explicit parameters; Django model instances are modelled as
plain records, with the database given as an explicit list of records.
-/

namespace CosinnusCloud

/-- Python strings are modelled as lists of characters. -/
abbrev Str := List Char

/-- Lower-casing a string, as Python str.lower() (per character). -/
def lowerS (s : Str) : Str := s.map Char.toLower

instance {ε α : Type} [DecidableEq ε] [DecidableEq α] : DecidableEq (Except ε α) := fun x y =>
  match x, y with
  | Except.ok a, Except.ok b =>
    if h : a = b then isTrue (by rw [h]) else isFalse (fun hc => h (Except.ok.inj hc))
  | Except.error a, Except.error b =>
    if h : a = b then isTrue (by rw [h]) else isFalse (fun hc => h (Except.error.inj hc))
  | Except.ok _, Except.error _ => isFalse (fun hc => Except.noConfusion hc)
  | Except.error _, Except.ok _ => isFalse (fun hc => Except.noConfusion hc)

/-- Python str.strip(): remove leading and trailing whitespace. -/
def stripS (s : Str) : Str :=
  ((s.dropWhile Char.isWhitespace).reverse.dropWhile Char.isWhitespace).reverse

/-- A character kept by the regex r"(?u)[^\w-]" of hooks.py line 156:
word characters (alphanumeric or underscore) and the literal hyphen.
The embedding uses the ASCII classification of alphanumerics. -/
def keptChar (c : Char) : Bool := c.isAlphanum || c == '_' || c == '-'

/-- Python str.replace(" ", "-----") from hooks.py line 155: every space
becomes five hyphens. -/
def spacesToDashes (s : Str) : Str :=
  (s.map (fun c => if c == ' ' then ['-', '-', '-', '-', '-'] else [c])).flatten

/-- Python str.replace("-----", " ") from hooks.py line 157: replace each
non-overlapping run of five hyphens, scanning left to right, by one space. -/
def dashesToSpaces : Str → Str
  | '-' :: '-' :: '-' :: '-' :: '-' :: rest => ' ' :: dashesToSpaces rest
  | c :: rest => c :: dashesToSpaces rest
  | [] => []

/-- Decimal digit characters. -/
def digitChar : Nat → Char
  | 0 => '0' | 1 => '1' | 2 => '2' | 3 => '3' | 4 => '4'
  | 5 => '5' | 6 => '6' | 7 => '7' | 8 => '8' | _ => '9'

/-- Numeric value of a decimal digit character (proof device, inverse of
digitChar on digits). -/
def digitVal (c : Char) : Nat := c.toNat - 48

/-- Decimal rendering of a natural number, as Python str(n):
most significant digit first, no leading zeros, and str(0) = "0". -/
def natDigits (n : Nat) : Str :=
  if n = 0 then ['0'] else (Nat.digits 10 n).reverse.map digitChar

section RetryExecutor

/-!
### Retry executor (hooks.py lines 26-74)

submit_with_retry wraps the given call fn in exec_with_retry, submits that
closure to a thread pool, and returns immediately; the future's outcome is
consumed by nc_req_callback, which logs and never re-raises.  The closure
attempts fn; on an exception it pops the next delay from the schedule
[2, 5, 10, 30, 60, 300], sleeps, and retries; when the schedule is empty
(pop raises IndexError) it logs "Giving up" and re-raises the last error
into the future.

The embedding models one submitted operation as a function from the attempt
index to the attempt's outcome (Except), and records the attempt count and
whether the giving-up log was emitted.  Sleeping is irrelevant to the
claims and is not modelled.
-/

variable {ε α : Type}

/-- Trace of one run of the exec_with_retry closure: how many times fn was
attempted, whether the "Giving up" exhaustion log was emitted, and the
value delivered to the future (ok result, or the final re-raised error). -/
structure RetryTrace (ε α : Type) where
  attempts : Nat
  gaveUp : Bool
  result : Except ε α

/-- The exec_with_retry closure of hooks.py lines 31-59, over the outcome
function fn (outcome of each attempt, indexed by attempt number) and the
remaining retry_wait schedule; attempt counts the attempts already made. -/
def exec_with_retry (fn : Nat → Except ε α) (retry_wait : List Nat) (attempt : Nat) :
    RetryTrace ε α :=
  match fn attempt with
  | Except.ok a => ⟨attempt + 1, false, Except.ok a⟩
  | Except.error e =>
    match retry_wait with
    | [] => ⟨attempt + 1, true, Except.error e⟩
    | _ :: rest => exec_with_retry fn rest (attempt + 1)

/-- The default retry schedule of hooks.py line 33 (seconds). -/
def default_retry_wait : List Nat := [2, 5, 10, 30, 60, 300]

/-- What nc_req_callback (hooks.py lines 68-74) does with the future's
outcome: it logs, in both branches, and never re-raises. -/
inductive CallbackLog where
  | exceptionLogged
  | debugLogged
  deriving DecidableEq

/-- nc_req_callback of hooks.py lines 68-74: future.result() re-raises the
stored error inside the callback, where it is caught and logged; a normal
result is logged at debug level.  The callback is total: it never throws. -/
def nc_req_callback (res : Except ε α) : CallbackLog :=
  match res with
  | Except.error _ => CallbackLog.exceptionLogged
  | Except.ok _ => CallbackLog.debugLogged

/-- submit_with_retry of hooks.py lines 29-61: the submitting caller gets
back plain Unit immediately (first component; the return type has no error
channel, so nothing can be raised into the submitter), and the worker-side
outcome is consumed by nc_req_callback (second component). -/
def submit_with_retry (fn : Nat → Except ε α) : Unit × CallbackLog :=
  ((), nc_req_callback (exec_with_retry fn default_retry_wait 0).result)

end RetryExecutor

section NameGenerator

/-!
### Name generator (hooks.py lines 141-191)

generate_group_nextcloud_field reads and writes one of two character
fields of the Django group model; the group database is modelled as an
explicit list of group records, and the settings flag
COSINNUS_CLOUD_PREFIX_GROUP_FOLDERS as a boolean parameter.
-/

/-- Group type: CosinnusSociety (TYPE_SOCIETY) or CosinnusProject. -/
inductive GroupType where
  | society
  | project
  deriving DecidableEq

/-- The target field parameter of generate_group_nextcloud_field. -/
inductive NCField where
  | group_id
  | groupfolder_name
  deriving DecidableEq

/-- The slice of a cosinnus group record the cloud app reads and writes.
Optional string fields use none for NULL; cloud_app_active models
"'cosinnus_cloud' not in group.get_deactivated_apps()". -/
structure Group where
  id : Nat
  name : Str
  type : GroupType
  nextcloud_group_id : Option Str
  nextcloud_groupfolder_name : Option Str
  nextcloud_groupfolder_id : Option Int
  cloud_app_active : Bool
  deriving DecidableEq

/-- getattr(group, field) for the two nextcloud name fields. -/
def getField (g : Group) : NCField → Option Str
  | NCField.group_id => g.nextcloud_group_id
  | NCField.groupfolder_name => g.nextcloud_groupfolder_name

/-- setattr(group, field, v) for the two nextcloud name fields. -/
def setField (g : Group) (f : NCField) (v : Str) : Group :=
  match f with
  | NCField.group_id => { g with nextcloud_group_id := some v }
  | NCField.groupfolder_name => { g with nextcloud_groupfolder_name := some v }

/-- Python truthiness of an optional string attribute: None and "" are
falsy. -/
def truthyStr : Option Str → Bool
  | none => false
  | some s => !s.isEmpty

/-- Python truthiness of an optional integer attribute: None and 0 are
falsy. -/
def truthyInt : Option Int → Bool
  | none => false
  | some n => n != 0

/-- Modelled from the spec: is_number from cosinnus.utils.functions (an
external helper of the platform package, not part of this repository);
per the spec a name "consists solely of digits" exactly when this holds,
so the model is: nonempty and every character a decimal digit. -/
def is_number (s : Str) : Bool := !s.isEmpty && s.all Char.isDigit

/-- The name-filtering pipeline of hooks.py lines 155-157: strip, protect
spaces as "-----", drop every character that is not a word character or a
hyphen, restore "-----" runs to spaces, strip again. -/
def filteredGroupName (name : Str) : Str :=
  stripS (dashesToSpaces ((spacesToDashes (stripS name)).filter keptChar))

/-- The candidate name before collision resolution, hooks.py lines
155-168: filtering, then either the category marker ("G - " or "P - ",
joined by "%s %s", when COSINNUS_CLOUD_PREFIX_GROUP_FOLDERS is enabled) or
the "Folder" fallback for empty or purely numeric names, then truncation
to 64 characters. -/
def nextcloudBaseName (prefixFolders : Bool) (g : Group) : Str :=
  let fn := filteredGroupName g.name
  let fn :=
    if prefixFolders then
      (if g.type = GroupType.society then ("G - ").data else ("P - ").data) ++ ' ' :: fn
    else if fn.isEmpty || is_number fn then ("Folder").data ++ fn
    else fn
  fn.take 64

/-- The Django filter field__istartswith=filtered_name on another group's
record: its stored value (NULL never matches) starts, case-insensitively,
with the candidate. -/
def fieldMatches (f : NCField) (base : Str) (o : Group) : Bool :=
  match getField o f with
  | none => false
  | some v => (lowerS base).isPrefixOf (lowerS v)

/-- The exclusion list all_names of hooks.py lines 171-180: the stored
values, lower-cased, of every other group whose value starts
case-insensitively with the candidate, plus the protected name "admin".
The list(set(...)) de-duplication of the original only changes
multiplicity, never membership, and the collision loop only tests
membership, so it is not modelled. -/
def excludedNames (others : List Group) (g : Group) (f : NCField) (base : Str) : List Str :=
  ((others.filter (fun o => (o.id != g.id) && fieldMatches f base o)).map
    (fun o => lowerS ((getField o f).getD []))) ++ [("admin").data]

/-- The suffixed collision candidate "%s %d" % (filtered_name, counter) of
hooks.py line 185. -/
def suffixedName (base : Str) (k : Nat) : Str := base ++ ' ' :: natDigits k

/-- The collision while-loop of hooks.py lines 182-186, unrolled on a fuel
bound: try base ++ " counter", incrementing counter while the lower-cased
candidate is excluded.  Fuel all_names.length + 1 is always sufficient
(proved below), so the fuel-exhausted fallback is never reached. -/
def uniquifyAux (base : Str) (all_names : List Str) : Nat → Nat → Str
  | 0, counter => suffixedName base counter
  | fuel + 1, counter =>
    let cand := suffixedName base counter
    if lowerS cand ∈ all_names then uniquifyAux base all_names fuel (counter + 1)
    else cand

/-- The whole collision loop: the base itself when free, else the first
free suffixed candidate counting from 2. -/
def uniqueName (base : Str) (all_names : List Str) : Str :=
  if lowerS base ∈ all_names then uniquifyAux base all_names (all_names.length + 1) 2
  else base

/-- generate_group_nextcloud_field of hooks.py lines 141-191.  Returns the
generated (or already stored) value, the updated in-memory group object,
and whether group.save() was issued.  others is the group database the
uniqueness query runs against. -/
def generate_group_nextcloud_field (prefixFolders : Bool) (others : List Group)
    (g : Group) (f : NCField) (save force_generate : Bool) : Str × Group × Bool :=
  if truthyStr (getField g f) && !force_generate then
    (((getField g f).getD []), g, false)
  else
    let base := nextcloudBaseName prefixFolders g
    let unique := uniqueName base (excludedNames others g f base)
    (unique, setField g f unique, save)

/-- generate_group_nextcloud_id of hooks.py lines 131-133. -/
def generate_group_nextcloud_id (prefixFolders : Bool) (others : List Group)
    (g : Group) (save force_generate : Bool) : Str × Group × Bool :=
  generate_group_nextcloud_field prefixFolders others g NCField.group_id save force_generate

/-- generate_group_nextcloud_groupfolder_name of hooks.py lines 136-138. -/
def generate_group_nextcloud_groupfolder_name (prefixFolders : Bool) (others : List Group)
    (g : Group) (save force_generate : Bool) : Str × Group × Bool :=
  generate_group_nextcloud_field prefixFolders others g NCField.groupfolder_name save force_generate

end NameGenerator

section RemoteAPIClient

/-!
### Remote API client (utils/nextcloud.py)

HTTP traffic is modelled by passing each remote response in explicitly.
A requests.Response is a record of its HTTP ok-flag and status code, its
parsed JSON body (none when the body fails to parse as JSON), and its raw
text; raising Python exceptions is modelled with Except.
-/

/-- An opaque Python value, as found in an OCS response's data payload,
with Python truthiness and Python equality-to-True. -/
inductive PyVal where
  | pyBool (b : Bool)
  | pyNone
  | pyInt (n : Int)
  | pyStr (s : Str)
  | pyOther (truthyFlag : Bool)
  deriving DecidableEq

/-- Python truthiness of a value; container values (lists, dicts, ...) are
abstracted as pyOther carrying just their truthiness. -/
def PyVal.truthy : PyVal → Bool
  | pyBool b => b
  | pyNone => false
  | pyInt n => n != 0
  | pyStr s => !s.isEmpty
  | pyOther t => t

/-- Python equality comparison with the True singleton (value == True):
True == True, and also 1 == True, are Python-true. -/
def PyVal.eqTrue : PyVal → Bool
  | pyBool b => b
  | pyInt n => n == 1
  | _ => false

/-- The ocs.meta part of an OCS JSON body (OCSResponse properties of
utils/nextcloud.py lines 22-54). -/
structure OCSMeta where
  status : Str
  statuscode : Int
  message : Str
  deriving DecidableEq

/-- A parsed OCS JSON body: meta plus the data payload. -/
structure OCSJson where
  meta : OCSMeta
  data : PyVal
  deriving DecidableEq

/-- The slice of a requests.Response the client inspects. -/
structure RequestsResponse where
  ok : Bool
  status_code : Nat
  body : Option OCSJson
  text : Str
  deriving DecidableEq

/-- The exceptions _response_or_raise can raise: the HTTPError of
raise_for_status for a transport-level failure, or an OCSException
carrying the structured statuscode and message (statuscode -1 with the
raw text when the body is not JSON). -/
inductive NCCallError where
  | httpError (code : Nat)
  | ocsException (statuscode : Int) (message : Str)
  deriving DecidableEq

/-- A successfully classified OCS response. -/
structure OCSResponse where
  json : OCSJson
  deriving DecidableEq

/-- _response_or_raise of utils/nextcloud.py lines 73-89: raise HTTPError
on a non-ok HTTP result, OCSException(-1, text) on a non-JSON body,
OCSException(statuscode, message) on a structured non-"ok" status, and
return the response otherwise. -/
def _response_or_raise (r : RequestsResponse) : Except NCCallError OCSResponse :=
  if !r.ok then Except.error (NCCallError.httpError r.status_code)
  else
    match r.body with
    | none => Except.error (NCCallError.ocsException (-1) r.text)
    | some j =>
      if j.meta.status = ("ok").data then Except.ok ⟨j⟩
      else Except.error (NCCallError.ocsException j.meta.statuscode j.meta.message)

/-- create_group of utils/nextcloud.py lines 176-190, as a function of the
remote response to the POST: classify the response, absorb the structured
"already exists" error (code 102) into a None result, and let every other
error propagate. -/
def create_group (r : RequestsResponse) : Except NCCallError (Option OCSResponse) :=
  match _response_or_raise r with
  | Except.ok resp => Except.ok (some resp)
  | Except.error (NCCallError.ocsException code msg) =>
    if code = 102 then Except.ok none
    else Except.error (NCCallError.ocsException code msg)
  | Except.error e => Except.error e

/-- One group folder as listed by GET /apps/groupfolders/folders: its
numeric id and its mount point name. -/
structure FolderInfo where
  id : Int
  mount_point : Str
  deriving DecidableEq

/-- The remote responses create_group_folder may consume, in call order,
each already classified by _response_or_raise (an Except.error models that
call raising), plus the configured group-folder quota
(COSINNUS_CLOUD_NEXTCLOUD_GROUPFOLDER_QUOTA; 0 models a falsy setting and
-3 the "unlimited" sentinel, both of which skip the quota call).  The
listing's data payload is modelled as the list of folders (the original
dict's values; an empty dict and a falsy payload both yield the empty
list), and the creation response's data payload as its "id" value (0 for a
falsy id). -/
structure GroupFolderEnv where
  listResult : Except NCCallError (List FolderInfo)
  createResult : Except NCCallError Int
  assignResult : Except NCCallError Unit
  quotaResult : Except NCCallError Unit
  quota : Int

/-- What create_group_folder can raise: a propagated remote-call error, or
the ValueError("A groupfolder with that name already exists"). -/
inductive CGFError where
  | call (e : NCCallError)
  | valueError
  deriving DecidableEq

/-- Observable outcome of create_group_folder: the raised error if any,
the group record after its side effects (which happen even when the
ValueError is raised afterwards), and whether the folder-creation POST was
issued. -/
structure CGFOut where
  error : Option CGFError
  group : Group
  createdFolder : Bool
  deriving DecidableEq

/-- create_group_folder of utils/nextcloud.py lines 194-266: list existing
folders; when one with the requested mount name exists, reconcile the
group's missing folder id with the discovered folder's id, then raise
ValueError or return according to raise_on_existing_name, without issuing
the creation POST; otherwise create the folder, record its id when truthy,
grant the group access, and set the quota unless the setting is falsy or
the unlimited sentinel -3. -/
def create_group_folder (env : GroupFolderEnv) (name : Str) (_group_id : Str)
    (g : Group) (raise_on_existing_name : Bool) : CGFOut :=
  match env.listResult with
  | Except.error e => ⟨some (CGFError.call e), g, false⟩
  | Except.ok folders =>
    match folders.filter (fun fo => fo.mount_point == name) with
    | entry :: _ =>
      let g1 := if truthyInt g.nextcloud_groupfolder_id then g
        else { g with nextcloud_groupfolder_id := some entry.id }
      if raise_on_existing_name then ⟨some CGFError.valueError, g1, false⟩
      else ⟨none, g1, false⟩
    | [] =>
      match env.createResult with
      | Except.error e => ⟨some (CGFError.call e), g, true⟩
      | Except.ok fid =>
        let g2 := if fid != 0 then { g with nextcloud_groupfolder_id := some fid } else g
        match env.assignResult with
        | Except.error e => ⟨some (CGFError.call e), g2, true⟩
        | Except.ok _ =>
          if env.quota != 0 && env.quota != -3 then
            match env.quotaResult with
            | Except.error e => ⟨some (CGFError.call e), g2, true⟩
            | Except.ok _ => ⟨none, g2, true⟩
          else ⟨none, g2, true⟩

/-- rename_group_and_group_folder of utils/nextcloud.py lines 269-279, as
a function of the remote response: classify it (raising propagates), then
return Python's "response.data and response.data == True" — the data
itself when falsy, else the boolean result of comparing it with True. -/
def rename_group_and_group_folder (r : RequestsResponse) : Except NCCallError PyVal :=
  match _response_or_raise r with
  | Except.error e => Except.error e
  | Except.ok resp =>
    Except.ok (if resp.json.data.truthy then PyVal.pyBool resp.json.data.eqTrue
      else resp.json.data)

/-- rename_nextcloud_groupfolder_on_group_rename of hooks.py lines
224-246, for the post_save signal with created=False.  The database row
and the in-memory instance coincide when the hook starts (the instance was
just saved); the hook returns the pair (in-memory instance, database row)
after it runs: regenerate the folder name softly (save=False,
force_generate=True), and if it changed, rename remotely; persist the new
name only when the rename returned exactly True, otherwise
refresh_from_db() discards the in-memory regeneration.  A raising rename
call propagates. -/
def rename_nextcloud_groupfolder_on_group_rename (prefixFolders : Bool)
    (others : List Group) (renameResp : RequestsResponse) (created : Bool)
    (db : Group) : Except NCCallError (Group × Group) :=
  if created then Except.ok (db, db)
  else
    if db.cloud_app_active && truthyStr db.nextcloud_group_id
        && truthyStr db.nextcloud_groupfolder_name
        && truthyInt db.nextcloud_groupfolder_id then
      if (generate_group_nextcloud_groupfolder_name prefixFolders others db false true).1
          ≠ db.nextcloud_groupfolder_name.getD [] then
        match rename_group_and_group_folder renameResp with
        | Except.error e => Except.error e
        | Except.ok result =>
          if result = PyVal.pyBool true then
            Except.ok
              ((generate_group_nextcloud_groupfolder_name prefixFolders others db false true).2.1,
               setField db NCField.groupfolder_name
                 (generate_group_nextcloud_groupfolder_name prefixFolders others db false true).1)
          else Except.ok (db, db)
      else Except.ok (db, db)
    else Except.ok (db, db)

end RemoteAPIClient

section ReadPath

/-!
### Read path (utils/nextcloud.py lines 349-438)

The WebDAV search response is modelled at the level BeautifulSoup delivers
it: an optional d:multistatus root holding a list of d:response entries,
each with its d:href text and optional oc:fileid text.  urllib.parse's
percent-decoder is an external library function and is passed in as an
opaque function parameter.
-/

/-- get_nc_user_id of hooks.py lines 64-65. -/
def get_nc_user_id (userId : Nat) : Str := ("wechange-").data ++ natDigits userId

/-- Python str.replace(old, new, 1), fuel-unrolled on the subject's
length (always sufficient: each step consumes one character). -/
def replaceFirstAux (pat repl : Str) : Nat → Str → Str
  | 0, s => s
  | fuel + 1, s =>
    match s with
    | [] => []
    | c :: rest =>
      if pat.isPrefixOf (c :: rest) then repl ++ (c :: rest).drop pat.length
      else c :: replaceFirstAux pat repl fuel rest

/-- Python s.replace(pat, repl, 1). -/
def replaceFirst (s pat repl : Str) : Str := replaceFirstAux pat repl s.length s

/-- Python str.split(sep) for a non-empty separator, fuel-unrolled on the
subject's length plus one (always sufficient: each step consumes at least
one character). -/
def splitSubAux (pat : Str) : Nat → Str → Str → List Str
  | 0, s, cur => [cur.reverse ++ s]
  | fuel + 1, s, cur =>
    match s with
    | [] => [cur.reverse]
    | c :: rest =>
      if pat.isPrefixOf (c :: rest) then
        cur.reverse :: splitSubAux pat fuel ((c :: rest).drop pat.length) []
      else splitSubAux pat fuel rest (c :: cur)

/-- Python s.split(pat). -/
def pySplit (s pat : Str) : List Str := splitSubAux pat (s.length + 1) s []

/-- The Python IndexError raised by an out-of-range list subscript. -/
inductive ParseError where
  | indexError
  deriving DecidableEq

/-- Python l[k] for a non-negative index, raising on out-of-range. -/
def posIndex (l : List Str) (k : Nat) : Except ParseError Str :=
  match l.drop k with
  | x :: _ => Except.ok x
  | [] => Except.error ParseError.indexError

/-- Python l[-(k+1)], raising on out-of-range. -/
def negIndex (l : List Str) (k : Nat) : Except ParseError Str :=
  match l.reverse.drop k with
  | x :: _ => Except.ok x
  | [] => Except.error ParseError.indexError

/-- One d:response entry of the WebDAV search result: the d:href text and
the oc:fileid text when that tag is present. -/
structure DavEntry where
  href : Str
  fileid : Option Str
  deriving DecidableEq

/-- The d:multistatus root of the WebDAV search result. -/
structure Multistatus where
  responses : List DavEntry
  deriving DecidableEq

/-- Python filepath.endswith('/'). -/
def endsWithSlash (s : Str) : Bool := s.getLast? == some '/'

/-- The CloudFile wrapper of models.py (the fields the parser fills; the
constant type/icon attributes are omitted). -/
structure CloudFile where
  title : Str
  url : Str
  download_url : Str
  folder : Str
  root_folder : Str
  path : Str
  deriving DecidableEq

/-- CloudFile.__init__ of models.py lines 27-42: when a user is supplied,
the admin account name inside the download URL is replaced (first
occurrence) by that user's nextcloud user id. -/
def mkCloudFile (admin : Str) (user : Option Nat)
    (title url download_url folder root_folder path : Str) : CloudFile :=
  { title := title
    url := url
    download_url := match user with
      | some uid => replaceFirst download_url admin (get_nc_user_id uid)
      | none => download_url
    folder := folder
    root_folder := root_folder
    path := path }

/-- The per-entry body of the parser loop, utils/nextcloud.py lines
411-437: skip entries with a falsy href, skip folders (href ending in
'/'), take the last and second-to-last path segments as file and folder
name, cut the path after the "/dav/files/<admin>" marker, apply the path
filter if any, read the root folder from that cut path, and build the
CloudFile.  Except.ok none means the entry was skipped. -/
def convertEntry (ncUrl admin : Str) (unquote : Str → Str)
    (path_filter : Option (Str → Bool)) (user : Option Nat) (entry : DavEntry) :
    Except ParseError (Option CloudFile) :=
  let filepath := entry.href
  if filepath.isEmpty then Except.ok none
  else if endsWithSlash filepath then Except.ok none
  else
    let splits := pySplit filepath ['/']
    let file_id := match entry.fileid with
      | some t => if t.isEmpty then none else some t
      | none => none
    match negIndex splits 0 with
    | Except.error e => Except.error e
    | Except.ok lastPart =>
      match negIndex splits 1 with
      | Except.error e => Except.error e
      | Except.ok secondPart =>
        let filename := unquote lastPart
        let folder_name := unquote secondPart
        match posIndex (pySplit filepath (("/dav/files/").data ++ admin)) 1 with
        | Except.error e => Except.error e
        | Except.ok actual_path =>
          let keep := match path_filter with
            | some pfn => pfn actual_path
            | none => true
          if !keep then Except.ok none
          else
            match posIndex (pySplit actual_path ['/']) 1 with
            | Except.error e => Except.error e
            | Except.ok rootPart =>
              Except.ok (some (mkCloudFile admin user filename
                (ncUrl ++ ("/f/").data
                  ++ (match file_id with | some t => t | none => ("None").data))
                (ncUrl ++ filepath) folder_name (unquote rootPart) actual_path))

/-- The parser loop over the (reversed) entry list, collecting the built
CloudFiles and propagating a raised IndexError. -/
def convertEntries (ncUrl admin : Str) (unquote : Str → Str)
    (path_filter : Option (Str → Bool)) (user : Option Nat) :
    List DavEntry → Except ParseError (List CloudFile)
  | [] => Except.ok []
  | e :: rest =>
    match convertEntry ncUrl admin unquote path_filter user e with
    | Except.error err => Except.error err
    | Except.ok none => convertEntries ncUrl admin unquote path_filter user rest
    | Except.ok (some cf) =>
      match convertEntries ncUrl admin unquote path_filter user rest with
      | Except.error err => Except.error err
      | Except.ok l => Except.ok (cf :: l)

/-- parse_cloud_files_search_response of utils/nextcloud.py lines 393-438:
the empty list when no d:multistatus root is found, else the loop over the
reversed d:response list. -/
def parse_cloud_files_search_response (ncUrl admin : Str) (unquote : Str → Str)
    (doc : Option Multistatus) (path_filter : Option (Str → Bool)) (user : Option Nat) :
    Except ParseError (List CloudFile) :=
  match doc with
  | none => Except.ok []
  | some ms => convertEntries ncUrl admin unquote path_filter user ms.responses.reverse

/-- list_group_folder_files of utils/nextcloud.py lines 349-356: the
files_search outcome is passed in; any exception it raised (any ε) yields
the empty list, else the response is parsed. -/
def list_group_folder_files {ε : Type} (searchResult : Except ε (Option Multistatus))
    (ncUrl admin : Str) (unquote : Str → Str) (user : Option Nat) :
    Except ParseError (List CloudFile) :=
  match searchResult with
  | Except.error _ => Except.ok []
  | Except.ok doc => parse_cloud_files_search_response ncUrl admin unquote doc none user

/-- list_user_group_folders_files of utils/nextcloud.py lines 359-376:
any files_search exception yields the empty list, else the response is
parsed with the path filter keeping paths that start with
"/<groupfolder>/" for one of the user's (URL-quoted) group folder
names. -/
def list_user_group_folders_files {ε : Type} (searchResult : Except ε (Option Multistatus))
    (ncUrl admin : Str) (unquote : Str → Str) (userGroupfolderNames : List Str)
    (user : Option Nat) : Except ParseError (List CloudFile) :=
  match searchResult with
  | Except.error _ => Except.ok []
  | Except.ok doc =>
    parse_cloud_files_search_response ncUrl admin unquote doc
      (some (fun path => userGroupfolderNames.any
        (fun gf => (('/' :: gf) ++ ['/']).isPrefixOf path))) user

end ReadPath

section RetryTheorems

/-- When every attempt of fn throws, the retry loop makes one attempt per
schedule entry plus the initial one, emits the giving-up log, and stores
the final error in the future. -/
theorem exec_with_retry_exhausts {ε α : Type} (fn : Nat → Except ε α)
    (h : ∀ i, ∃ e, fn i = Except.error e) :
    ∀ (w : List Nat) (k : Nat),
      ∃ e, exec_with_retry fn w k = ⟨k + w.length + 1, true, Except.error e⟩ := by
  intro w
  induction w with
  | nil =>
    intro k
    obtain ⟨e, he⟩ := h k
    exact ⟨e, by simp [exec_with_retry, he]⟩
  | cons d rest ih =>
    intro k
    obtain ⟨e, he⟩ := h k
    obtain ⟨e', he'⟩ := ih (k + 1)
    refine ⟨e', ?_⟩
    have hlen : k + (d :: rest).length + 1 = k + 1 + rest.length + 1 := by
      simp
      omega
    rw [exec_with_retry, he]
    show exec_with_retry fn rest (k + 1) = _
    rw [he', hlen]

/-- C1: an operation submitted to the retry executor whose every attempt
throws is attempted exactly len(delaySchedule)+1 times in total (7 with the
default schedule [2, 5, 10, 30, 60, 300]), the exhaustion log is emitted,
and the final error is only fed to the logging callback: the submitter gets
back plain Unit, with no error channel to raise into. -/
theorem retry_always_failing_exhausts {ε α : Type} (fn : Nat → Except ε α)
    (h : ∀ i, ∃ e, fn i = Except.error e) :
    (exec_with_retry fn default_retry_wait 0).attempts = default_retry_wait.length + 1
    ∧ (exec_with_retry fn default_retry_wait 0).attempts = 7
    ∧ (exec_with_retry fn default_retry_wait 0).gaveUp = true
    ∧ submit_with_retry fn = ((), CallbackLog.exceptionLogged) := by
  obtain ⟨e, he⟩ := exec_with_retry_exhausts fn h default_retry_wait 0
  refine ⟨?_, ?_, ?_, ?_⟩ <;>
    · simp only [submit_with_retry, nc_req_callback, he]
      try simp [default_retry_wait]

/-- Witness for the retry-exhaustion theorem at a concrete always-failing
operation. -/
theorem retry_always_failing_exhausts_witness :
    (exec_with_retry (fun _ => (Except.error 0 : Except Nat Unit)) default_retry_wait 0).attempts = 7
    ∧ submit_with_retry (fun _ => (Except.error 0 : Except Nat Unit))
        = ((), CallbackLog.exceptionLogged) := by
  have h := retry_always_failing_exhausts (fun _ => (Except.error 0 : Except Nat Unit))
    (fun _ => ⟨0, rfl⟩)
  exact ⟨h.2.1, h.2.2.2⟩

end RetryTheorems

section UniquifyLemmas

/-- Lower-casing fixes decimal digit characters. -/
theorem digitChar_toLower (d : Nat) : Char.toLower (digitChar d) = digitChar d := by
  rcases d with _ | _ | _ | _ | _ | _ | _ | _ | _ | d <;> exact of_decide_eq_true rfl

/-- digitVal inverts digitChar on digits. -/
theorem digitVal_digitChar : ∀ d, d < 10 → digitVal (digitChar d) = d := by
  decide

/-- Evaluating the decimal rendering recovers the number. -/
theorem natDigits_val (n : Nat) :
    Nat.ofDigits 10 (((natDigits n).map digitVal).reverse) = n := by
  by_cases h : n = 0
  · subst h
    decide
  · have hmap : ((Nat.digits 10 n).reverse.map digitChar).map digitVal
        = (Nat.digits 10 n).reverse := by
      rw [List.map_map]
      have : ∀ d ∈ (Nat.digits 10 n).reverse, (digitVal ∘ digitChar) d = d := by
        intro d hd
        exact digitVal_digitChar d
          (Nat.digits_lt_base (by norm_num) (List.mem_reverse.mp hd))
      rw [List.map_congr_left this]
      simp
    rw [natDigits, if_neg h, hmap, List.reverse_reverse, Nat.ofDigits_digits]

/-- The decimal rendering is injective. -/
theorem natDigits_inj {m n : Nat} (h : natDigits m = natDigits n) : m = n := by
  have := natDigits_val m
  rw [h, natDigits_val n] at this
  exact this.symm

/-- Lower-casing fixes the decimal rendering. -/
theorem lowerS_natDigits (n : Nat) : lowerS (natDigits n) = natDigits n := by
  by_cases h : n = 0
  · subst h
    decide
  · rw [natDigits, if_neg h, lowerS, List.map_map]
    exact List.map_congr_left (fun d _ => digitChar_toLower d)

/-- Lower-casing distributes over append. -/
theorem lowerS_append (a b : Str) : lowerS (a ++ b) = lowerS a ++ lowerS b :=
  List.map_append _ a b

/-- Two suffixed candidates with the same base and equal lower-casings
carry the same counter. -/
theorem suffixedName_lower_inj (base : Str) {j k : Nat}
    (h : lowerS (suffixedName base j) = lowerS (suffixedName base k)) : j = k := by
  rw [suffixedName, suffixedName, lowerS_append, lowerS_append] at h
  have h2 := List.append_cancel_left h
  rw [lowerS, lowerS, List.map_cons, List.map_cons] at h2
  have h3 := List.tail_eq_of_cons_eq h2
  rw [show List.map Char.toLower (natDigits j) = lowerS (natDigits j) from rfl,
    show List.map Char.toLower (natDigits k) = lowerS (natDigits k) from rfl,
    lowerS_natDigits, lowerS_natDigits] at h3
  exact natDigits_inj h3

/-- Pigeonhole: among all_names.length + 1 successive suffixed candidates
at least one is not excluded. -/
theorem exists_suffix_free (base : Str) (all_names : List Str) (counter : Nat) :
    ∃ i, i < all_names.length + 1
      ∧ lowerS (suffixedName base (counter + i)) ∉ all_names := by
  by_contra hcon
  push_neg at hcon
  set f : Nat → Str := fun i => lowerS (suffixedName base (counter + i)) with hf
  set L : List Str := (List.range (all_names.length + 1)).map f with hL
  have hnodup : L.Nodup := by
    refine List.Nodup.map_on ?_ (List.nodup_range _)
    intro i _ j _ hij
    have := suffixedName_lower_inj base hij
    omega
  have hsub : L ⊆ all_names := by
    intro x hx
    obtain ⟨i, hi, rfl⟩ := List.mem_map.mp hx
    exact hcon i (List.mem_range.mp hi)
  have := (List.subperm_of_subset hnodup hsub).length_le
  simp [hL] at this

/-- The unrolled collision loop returns a candidate that is not excluded,
provided some candidate within the fuel bound is free; the result is a
suffixed candidate with counter at least the starting one. -/
theorem uniquifyAux_spec (base : Str) (all_names : List Str) :
    ∀ fuel counter, (∃ i, i < fuel ∧ lowerS (suffixedName base (counter + i)) ∉ all_names) →
      lowerS (uniquifyAux base all_names fuel counter) ∉ all_names
      ∧ ∃ k, counter ≤ k ∧ uniquifyAux base all_names fuel counter = suffixedName base k := by
  intro fuel
  induction fuel with
  | zero =>
    intro counter h
    obtain ⟨i, hi, _⟩ := h
    omega
  | succ fuel ih =>
    intro counter h
    rw [uniquifyAux]
    by_cases hmem : lowerS (suffixedName base counter) ∈ all_names
    · rw [if_pos hmem]
      obtain ⟨i, hi, hfree⟩ := h
      have hi0 : i ≠ 0 := by
        rintro rfl
        simp at hfree
        exact hfree hmem
      obtain ⟨i', rfl⟩ := Nat.exists_eq_succ_of_ne_zero hi0
      have hrec := ih (counter + 1)
        ⟨i', by omega, by rw [show counter + 1 + i' = counter + (i' + 1) by omega]; exact hfree⟩
      exact ⟨hrec.1, by obtain ⟨k, hk, he⟩ := hrec.2; exact ⟨k, by omega, he⟩⟩
    · rw [if_neg hmem]
      exact ⟨hmem, counter, le_refl _, rfl⟩

/-- The collision loop never returns an excluded name, and the result is
the base itself or a suffixed candidate with counter at least 2. -/
theorem uniqueName_spec (base : Str) (all_names : List Str) :
    lowerS (uniqueName base all_names) ∉ all_names
    ∧ (uniqueName base all_names = base
       ∨ ∃ k, 2 ≤ k ∧ uniqueName base all_names = suffixedName base k) := by
  rw [uniqueName]
  by_cases hmem : lowerS base ∈ all_names
  · rw [if_pos hmem]
    obtain ⟨i, hi, hfree⟩ := exists_suffix_free base all_names 2
    have h := uniquifyAux_spec base all_names (all_names.length + 1) 2 ⟨i, hi, hfree⟩
    exact ⟨h.1, Or.inr (h.2.imp (fun k hk => hk))⟩
  · rw [if_neg hmem]
    exact ⟨hmem, Or.inl rfl⟩

/-- The generated name always extends the truncated base candidate. -/
theorem uniqueName_isPrefix (base : Str) (all_names : List Str) :
    base <+: uniqueName base all_names := by
  rcases (uniqueName_spec base all_names).2 with h | ⟨k, _, h⟩
  · rw [h]
  · rw [h, suffixedName]
    exact List.prefix_append _ _

end UniquifyLemmas

section NameGeneratorTheorems

/-- When the field is unset the generator runs the generation path and
returns the collision-resolved candidate. -/
theorem generate_field_eq_uniqueName (pf : Bool) (others : List Group) (g : Group)
    (f : NCField) (save force : Bool) (hgen : truthyStr (getField g f) = false) :
    (generate_group_nextcloud_field pf others g f save force).1
      = uniqueName (nextcloudBaseName pf g)
          (excludedNames others g f (nextcloudBaseName pf g)) := by
  simp [generate_group_nextcloud_field, hgen]

/-- C3: when the target field already holds a non-empty value, the
generator without force_generate returns that stored value and leaves the
group object untouched, so a second call returns the same value again. -/
theorem generate_idempotent (pf : Bool) (others : List Group) (g : Group)
    (f : NCField) (save : Bool) (v : Str)
    (hstored : getField g f = some v) (hv : v ≠ []) :
    generate_group_nextcloud_field pf others g f save false = (v, g, false)
    ∧ generate_group_nextcloud_field pf others
        (generate_group_nextcloud_field pf others g f save false).2.1 f save false
        = (v, g, false) := by
  have htruthy : truthyStr (getField g f) = true := by
    rw [hstored]
    simpa [truthyStr] using hv
  have htruthy2 : truthyStr (some v) = true := hstored ▸ htruthy
  have h1 : generate_group_nextcloud_field pf others g f save false = (v, g, false) := by
    simp [generate_group_nextcloud_field, hstored, htruthy2]
  exact ⟨h1, by rw [h1]; exact h1⟩

/-- Witness for the idempotence theorem at a concrete group. -/
theorem generate_idempotent_witness :
    generate_group_nextcloud_field false []
      ⟨1, ("Team Alpha").data, GroupType.project, some (("Team Alpha").data), none, none, true⟩
      NCField.group_id true false
      = (("Team Alpha").data,
         ⟨1, ("Team Alpha").data, GroupType.project, some (("Team Alpha").data), none, none, true⟩,
         false) :=
  (generate_idempotent false []
    ⟨1, ("Team Alpha").data, GroupType.project, some (("Team Alpha").data), none, none, true⟩
    NCField.group_id true (("Team Alpha").data) rfl (by decide)).1

/-- C4: for two distinct groups with the same display name, generating a
field value for the second while the first's stored value is in the
database yields a value that differs case-insensitively from the stored
one, and the generated value is never the reserved name "admin" in any
letter case. -/
theorem generated_names_unique (pf : Bool) (others : List Group) (g1 g2 : Group)
    (f : NCField) (save : Bool) (v : Str)
    (hid : g1.id ≠ g2.id) (_hname : g1.name = g2.name) (hmem : g1 ∈ others)
    (hstored : getField g1 f = some v)
    (hgen : truthyStr (getField g2 f) = false) :
    lowerS (generate_group_nextcloud_field pf others g2 f save false).1 ≠ lowerS v
    ∧ lowerS (generate_group_nextcloud_field pf others g2 f save false).1 ≠ ("admin").data := by
  rw [generate_field_eq_uniqueName pf others g2 f save false hgen]
  set base := nextcloudBaseName pf g2 with hbase
  set all := excludedNames others g2 f base with hall
  have hspec := uniqueName_spec base all
  have hadmin : ("admin").data ∈ all := by
    rw [hall, excludedNames]
    exact List.mem_append_right _ (List.mem_singleton.mpr rfl)
  constructor
  · intro heq
    apply hspec.1
    rw [heq]
    rw [hall, excludedNames]
    apply List.mem_append_left
    apply List.mem_map.mpr
    refine ⟨g1, List.mem_filter.mpr ⟨hmem, ?_⟩, by rw [hstored]; rfl⟩
    have hprefix : lowerS base <+: lowerS v := by
      obtain ⟨t, ht⟩ := uniqueName_isPrefix base all
      rw [← heq, ← ht, lowerS_append]
      exact ⟨lowerS t, rfl⟩
    simp only [Bool.and_eq_true, bne_iff_ne, ne_eq, fieldMatches, hstored]
    exact ⟨hid, List.isPrefixOf_iff_prefix.mpr hprefix⟩
  · intro heq
    rw [heq] at hspec
    exact hspec.1 hadmin

/-- Witness for the uniqueness theorem: two groups both named
"Team Alpha"; the second one generates "Team Alpha 2". -/
theorem generated_names_unique_witness :
    lowerS (generate_group_nextcloud_field false
        [⟨1, ("Team Alpha").data, GroupType.project, some (("Team Alpha").data), none, none, true⟩]
        ⟨2, ("Team Alpha").data, GroupType.project, none, none, none, true⟩
        NCField.group_id true false).1 ≠ lowerS (("Team Alpha").data)
    ∧ lowerS (generate_group_nextcloud_field false
        [⟨1, ("Team Alpha").data, GroupType.project, some (("Team Alpha").data), none, none, true⟩]
        ⟨2, ("Team Alpha").data, GroupType.project, none, none, none, true⟩
        NCField.group_id true false).1 ≠ ("admin").data :=
  generated_names_unique false
    [⟨1, ("Team Alpha").data, GroupType.project, some (("Team Alpha").data), none, none, true⟩]
    ⟨1, ("Team Alpha").data, GroupType.project, some (("Team Alpha").data), none, none, true⟩
    ⟨2, ("Team Alpha").data, GroupType.project, none, none, none, true⟩
    NCField.group_id true (("Team Alpha").data)
    (by decide) rfl (by decide) rfl rfl

/-- C2 counterexample: a group whose display name is 65 letters long,
colliding with another group that already stores the 64-letter truncation,
receives the suffix " 2" after truncation, producing a 66-character
identifier — the collision suffix does push the result past the 64-character
bound. -/
theorem truncation_bound_counterexample :
    ¬ ((generate_group_nextcloud_field false
        [⟨2, List.replicate 65 'a', GroupType.project, some (List.replicate 64 'a'), none, none, true⟩]
        ⟨1, List.replicate 65 'a', GroupType.project, none, none, none, true⟩
        NCField.group_id true false).1.length ≤ 64) := by
  decide

/-- C2 (amended): truncation to the 64-character bound is applied to the
candidate before collision resolution, so the base candidate never exceeds
64 characters and a non-colliding name yields an identifier of length at
most 64; the collision suffix (" 2", " 3", ...) is appended after
truncation and can push the final identifier past the bound. -/
theorem truncation_before_suffixing (pf : Bool) (others : List Group) (g : Group)
    (f : NCField) (save force : Bool)
    (hgen : truthyStr (getField g f) = false)
    (hfree : lowerS (nextcloudBaseName pf g)
      ∉ excludedNames others g f (nextcloudBaseName pf g)) :
    (nextcloudBaseName pf g).length ≤ 64
    ∧ (generate_group_nextcloud_field pf others g f save force).1.length ≤ 64 := by
  have hbase : (nextcloudBaseName pf g).length ≤ 64 := by
    simp only [nextcloudBaseName]
    rw [List.length_take]
    omega
  refine ⟨hbase, ?_⟩
  rw [generate_field_eq_uniqueName pf others g f save force hgen, uniqueName, if_neg hfree]
  exact hbase

/-- Witness for the amended truncation theorem at a non-colliding group. -/
theorem truncation_before_suffixing_witness :
    (nextcloudBaseName false
      (⟨1, ("Team Alpha").data, GroupType.project, none, none, none, true⟩ : Group)).length ≤ 64
    ∧ (generate_group_nextcloud_field false []
        ⟨1, ("Team Alpha").data, GroupType.project, none, none, none, true⟩
        NCField.group_id true false).1.length ≤ 64 :=
  truncation_before_suffixing false []
    ⟨1, ("Team Alpha").data, GroupType.project, none, none, none, true⟩
    NCField.group_id true false rfl (by decide)

/-- C5: with the category-prefix flag disabled, a group whose filtered
display name is empty or purely numeric gets the literal "Folder" prefix,
so the generated identifier is non-empty and not purely numeric; in
particular the group named "123" with no collisions gets "Folder123". -/
theorem numeric_or_empty_fallback (others : List Group) (g : Group)
    (f : NCField) (save force : Bool)
    (hgen : truthyStr (getField g f) = false)
    (hnum : filteredGroupName g.name = [] ∨ is_number (filteredGroupName g.name) = true) :
    (generate_group_nextcloud_field false others g f save force).1 ≠ []
    ∧ ((generate_group_nextcloud_field false others g f save force).1.all Char.isDigit) = false
    ∧ (generate_group_nextcloud_field false []
        ⟨1, ("123").data, GroupType.project, none, none, none, true⟩
        NCField.group_id true false).1 = ("Folder123").data := by
  have hcond : ((filteredGroupName g.name).isEmpty || is_number (filteredGroupName g.name))
      = true := by
    rcases hnum with h | h
    · rw [h]
      rfl
    · rw [h]
      simp
  have hshape : ∃ t, nextcloudBaseName false g = 'F' :: t := by
    refine ⟨List.take 63 (("older").data ++ filteredGroupName g.name), ?_⟩
    simp only [nextcloudBaseName, Bool.false_eq_true, if_false, hcond, if_true]
    rfl
  obtain ⟨t, ht⟩ := hshape
  have hres : ∃ t', (generate_group_nextcloud_field false others g f save force).1
      = 'F' :: t' := by
    rw [generate_field_eq_uniqueName false others g f save force hgen]
    obtain ⟨s, hs⟩ := uniqueName_isPrefix (nextcloudBaseName false g)
      (excludedNames others g f (nextcloudBaseName false g))
    refine ⟨t ++ s, ?_⟩
    rw [← hs, ht]
    rfl
  obtain ⟨t', ht'⟩ := hres
  rw [ht']
  refine ⟨by simp, by simp [List.all_cons], by decide⟩

/-- Witness for the numeric-fallback theorem at the group named "123". -/
theorem numeric_or_empty_fallback_witness :
    (generate_group_nextcloud_field false []
      (⟨1, ("123").data, GroupType.project, none, none, none, true⟩ : Group)
      NCField.group_id true false).1 ≠ []
    ∧ ((generate_group_nextcloud_field false []
        (⟨1, ("123").data, GroupType.project, none, none, none, true⟩ : Group)
        NCField.group_id true false).1.all Char.isDigit) = false :=
  let h := numeric_or_empty_fallback []
    ⟨1, ("123").data, GroupType.project, none, none, none, true⟩
    NCField.group_id true false rfl (Or.inr (by decide))
  ⟨h.1, h.2.1⟩

end NameGeneratorTheorems

section RemoteAPITheorems

/-- C6: when the remote backend answers the create-group POST with a
structured error, createGroup returns None for the "already exists" code
102 instead of raising, and propagates the error for every other
structured code. -/
theorem create_group_absorbs_already_exists (r : RequestsResponse) (j : OCSJson)
    (hok : r.ok = true) (hbody : r.body = some j)
    (hstatus : j.meta.status ≠ ("ok").data) :
    (j.meta.statuscode = 102 → create_group r = Except.ok none)
    ∧ (j.meta.statuscode ≠ 102 →
        create_group r
          = Except.error (NCCallError.ocsException j.meta.statuscode j.meta.message)) := by
  have hror : _response_or_raise r
      = Except.error (NCCallError.ocsException j.meta.statuscode j.meta.message) := by
    simp [_response_or_raise, hok, hbody, hstatus]
  constructor <;> intro h <;> simp [create_group, hror, h]

/-- Witness for the create-group classification theorem at concrete
structured-error responses with codes 102 and 103. -/
theorem create_group_absorbs_already_exists_witness :
    create_group ⟨true, 200, some ⟨⟨("failure").data, 102, ("already exists").data⟩,
      PyVal.pyNone⟩, []⟩ = Except.ok none
    ∧ create_group ⟨true, 200, some ⟨⟨("failure").data, 103, ("invalid name").data⟩,
      PyVal.pyNone⟩, []⟩
        = Except.error (NCCallError.ocsException 103 (("invalid name").data)) :=
  ⟨(create_group_absorbs_already_exists
      ⟨true, 200, some ⟨⟨("failure").data, 102, ("already exists").data⟩, PyVal.pyNone⟩, []⟩
      ⟨⟨("failure").data, 102, ("already exists").data⟩, PyVal.pyNone⟩
      rfl rfl (by decide)).1 rfl,
   (create_group_absorbs_already_exists
      ⟨true, 200, some ⟨⟨("failure").data, 103, ("invalid name").data⟩, PyVal.pyNone⟩, []⟩
      ⟨⟨("failure").data, 103, ("invalid name").data⟩, PyVal.pyNone⟩
      rfl rfl (by decide)).2 (by decide)⟩

/-- C7: when the folder listing already contains a folder with the
requested mount name, create_group_folder raises the naming-conflict
ValueError when raise_on_existing_name is set and returns normally
otherwise; in both cases the creation POST is never issued, and the
group's missing folder id is reconciled with the discovered folder's
id (an already-truthy stored id is left alone). -/
theorem create_group_folder_existing_name (env : GroupFolderEnv)
    (folders : List FolderInfo) (name group_id : Str) (g : Group)
    (entry : FolderInfo) (rest : List FolderInfo)
    (hlist : env.listResult = Except.ok folders)
    (hmatch : folders.filter (fun fo => fo.mount_point == name) = entry :: rest) :
    (create_group_folder env name group_id g true).error = some CGFError.valueError
    ∧ (create_group_folder env name group_id g false).error = none
    ∧ (create_group_folder env name group_id g true).createdFolder = false
    ∧ (create_group_folder env name group_id g false).createdFolder = false
    ∧ (truthyInt g.nextcloud_groupfolder_id = false →
        (create_group_folder env name group_id g false).group.nextcloud_groupfolder_id
          = some entry.id)
    ∧ (truthyInt g.nextcloud_groupfolder_id = true →
        (create_group_folder env name group_id g false).group = g) := by
  refine ⟨?_, ?_, ?_, ?_, ?_, ?_⟩ <;>
    simp only [create_group_folder, hlist, hmatch]
  · simp
  · simp
  · simp
  · simp
  · intro h
    simp [h]
  · intro h
    simp [h]

/-- Witness for the existing-name theorem: a second group whose target
mount name is already taken reconciles its missing folder id and returns
without raising or creating. -/
theorem create_group_folder_existing_name_witness :
    (create_group_folder
      ⟨Except.ok [⟨7, ("Team Alpha").data⟩], Except.ok 9, Except.ok (), Except.ok (), 0⟩
      (("Team Alpha").data) (("Team Alpha 2").data)
      ⟨2, ("Team Alpha").data, GroupType.project, some (("Team Alpha 2").data),
        some (("Team Alpha").data), none, true⟩
      false).error = none
    ∧ (create_group_folder
      ⟨Except.ok [⟨7, ("Team Alpha").data⟩], Except.ok 9, Except.ok (), Except.ok (), 0⟩
      (("Team Alpha").data) (("Team Alpha 2").data)
      ⟨2, ("Team Alpha").data, GroupType.project, some (("Team Alpha 2").data),
        some (("Team Alpha").data), none, true⟩
      false).createdFolder = false
    ∧ (create_group_folder
      ⟨Except.ok [⟨7, ("Team Alpha").data⟩], Except.ok 9, Except.ok (), Except.ok (), 0⟩
      (("Team Alpha").data) (("Team Alpha 2").data)
      ⟨2, ("Team Alpha").data, GroupType.project, some (("Team Alpha 2").data),
        some (("Team Alpha").data), none, true⟩
      false).group.nextcloud_groupfolder_id = some 7 :=
  let h := create_group_folder_existing_name
    ⟨Except.ok [⟨7, ("Team Alpha").data⟩], Except.ok 9, Except.ok (), Except.ok (), 0⟩
    [⟨7, ("Team Alpha").data⟩] (("Team Alpha").data) (("Team Alpha 2").data)
    ⟨2, ("Team Alpha").data, GroupType.project, some (("Team Alpha 2").data),
      some (("Team Alpha").data), none, true⟩
    ⟨7, ("Team Alpha").data⟩ [] rfl (by decide)
  ⟨h.2.1, h.2.2.2.1, h.2.2.2.2.1 rfl⟩

/-- C8: in the rename save hook, a recomputed folder name is persisted to
the database exactly when the remote rename returned the True singleton:
when the rename result is anything else the database row is unchanged and
the in-memory instance's folder name still reads the prior stored value
(refresh_from_db), and when the numeric folder id is missing nothing
happens at all. -/
theorem rename_hook_persists_only_on_true (pf : Bool) (others : List Group)
    (resp : RequestsResponse) (db mem db' : Group)
    (hrun : rename_nextcloud_groupfolder_on_group_rename pf others resp false db
      = Except.ok (mem, db')) :
    (rename_group_and_group_folder resp ≠ Except.ok (PyVal.pyBool true) →
       db' = db ∧ mem.nextcloud_groupfolder_name = db.nextcloud_groupfolder_name)
    ∧ (truthyInt db.nextcloud_groupfolder_id = false → mem = db ∧ db' = db)
    ∧ (db' ≠ db →
        rename_group_and_group_folder resp = Except.ok (PyVal.pyBool true)
        ∧ db' = setField db NCField.groupfolder_name
            (generate_group_nextcloud_groupfolder_name pf others db false true).1) := by
  have base : db = mem → db = db' →
      (rename_group_and_group_folder resp ≠ Except.ok (PyVal.pyBool true) →
         db' = db ∧ mem.nextcloud_groupfolder_name = db.nextcloud_groupfolder_name)
      ∧ (truthyInt db.nextcloud_groupfolder_id = false → mem = db ∧ db' = db)
      ∧ (db' ≠ db →
          rename_group_and_group_folder resp = Except.ok (PyVal.pyBool true)
          ∧ db' = setField db NCField.groupfolder_name
              (generate_group_nextcloud_groupfolder_name pf others db false true).1) := by
    intro h1 h2
    exact ⟨fun _ => ⟨h2.symm, by rw [← h1]⟩, fun _ => ⟨h1.symm, h2.symm⟩,
      fun hne => absurd h2.symm hne⟩
  rw [rename_nextcloud_groupfolder_on_group_rename, if_neg (by simp)] at hrun
  by_cases hguard : (db.cloud_app_active && truthyStr db.nextcloud_group_id
      && truthyStr db.nextcloud_groupfolder_name
      && truthyInt db.nextcloud_groupfolder_id) = true
  · rw [if_pos hguard] at hrun
    have hid : truthyInt db.nextcloud_groupfolder_id = true := by
      simp only [Bool.and_eq_true] at hguard
      exact hguard.2
    by_cases hchange : (generate_group_nextcloud_groupfolder_name pf others db false true).1
        ≠ db.nextcloud_groupfolder_name.getD []
    · rw [if_pos hchange] at hrun
      split at hrun
      · exact absurd hrun (by simp)
      · rename_i result hren
        by_cases hres : result = PyVal.pyBool true
        · rw [if_pos hres] at hrun
          obtain ⟨h1, h2⟩ :
              (generate_group_nextcloud_groupfolder_name pf others db false true).2.1 = mem
              ∧ setField db NCField.groupfolder_name
                  (generate_group_nextcloud_groupfolder_name pf others db false true).1 = db' := by
            simpa using hrun
          refine ⟨fun hne => absurd (by rw [hren, hres]) hne,
            fun hf => absurd hf (by simp [hid]),
            fun _ => ⟨by rw [hren, hres], h2.symm⟩⟩
        · rw [if_neg hres] at hrun
          obtain ⟨h1, h2⟩ : db = mem ∧ db = db' := by simpa using hrun
          exact base h1 h2
    · rw [if_neg hchange] at hrun
      obtain ⟨h1, h2⟩ : db = mem ∧ db = db' := by simpa using hrun
      exact base h1 h2
  · rw [if_neg hguard] at hrun
    obtain ⟨h1, h2⟩ : db = mem ∧ db = db' := by simpa using hrun
    exact base h1 h2

/-- Witness for the rename-safety theorem: a group renamed to "New Name"
whose remote rename answers with data False keeps its stored folder name
"Old Name" in both the database row and the refreshed instance. -/
theorem rename_hook_persists_only_on_true_witness :
    (⟨1, ("New Name").data, GroupType.project, some (("grp").data), some (("Old Name").data),
        some 7, true⟩ : Group)
      = (⟨1, ("New Name").data, GroupType.project, some (("grp").data), some (("Old Name").data),
        some 7, true⟩ : Group)
    ∧ (⟨1, ("New Name").data, GroupType.project, some (("grp").data), some (("Old Name").data),
        some 7, true⟩ : Group).nextcloud_groupfolder_name
      = (⟨1, ("New Name").data, GroupType.project, some (("grp").data), some (("Old Name").data),
        some 7, true⟩ : Group).nextcloud_groupfolder_name := by
  have h := rename_hook_persists_only_on_true false []
    ⟨true, 200, some ⟨⟨("ok").data, 100, []⟩, PyVal.pyBool false⟩, []⟩
    ⟨1, ("New Name").data, GroupType.project, some (("grp").data), some (("Old Name").data),
      some 7, true⟩
    ⟨1, ("New Name").data, GroupType.project, some (("grp").data), some (("Old Name").data),
      some 7, true⟩
    ⟨1, ("New Name").data, GroupType.project, some (("grp").data), some (("Old Name").data),
      some 7, true⟩
    (by decide)
  have h1 := h.1 (by decide)
  exact ⟨h1.1, h1.2⟩

end RemoteAPITheorems

section ReadPathTheorems

/-- C9: both read-path listing functions absorb any exception of the
underlying search call and return the empty list instead of
propagating. -/
theorem listing_absorbs_search_errors {ε : Type} (e : ε) (ncUrl admin : Str)
    (unquote : Str → Str) (userGroupfolderNames : List Str) (user : Option Nat) :
    list_group_folder_files (Except.error e : Except ε (Option Multistatus))
      ncUrl admin unquote user = Except.ok []
    ∧ list_user_group_folders_files (Except.error e : Except ε (Option Multistatus))
      ncUrl admin unquote userGroupfolderNames user = Except.ok [] :=
  ⟨rfl, rfl⟩

/-- An entry the parser turns into a record has a non-empty href that does
not end in '/': empty hrefs and folders are skipped before any record is
built. -/
theorem convertEntry_ok_some_is_file (ncUrl admin : Str) (unquote : Str → Str)
    (path_filter : Option (Str → Bool)) (user : Option Nat) (entry : DavEntry)
    (cf : CloudFile)
    (h : convertEntry ncUrl admin unquote path_filter user entry = Except.ok (some cf)) :
    entry.href ≠ [] ∧ endsWithSlash entry.href = false := by
  by_cases h1 : entry.href.isEmpty = true
  · rw [convertEntry, if_pos h1] at h
    exact absurd h (by simp)
  · by_cases h2 : endsWithSlash entry.href = true
    · rw [convertEntry, if_neg h1, if_pos h2] at h
      exact absurd h (by simp)
    · refine ⟨?_, by simpa using h2⟩
      intro hnil
      exact h1 (by rw [hnil]; rfl)

/-- Every record produced by the parser loop comes from one entry of the
list via convertEntry. -/
theorem convertEntries_sound (ncUrl admin : Str) (unquote : Str → Str)
    (path_filter : Option (Str → Bool)) (user : Option Nat) :
    ∀ (l : List DavEntry) (out : List CloudFile),
      convertEntries ncUrl admin unquote path_filter user l = Except.ok out →
      ∀ cf ∈ out, ∃ entry ∈ l,
        convertEntry ncUrl admin unquote path_filter user entry = Except.ok (some cf) := by
  intro l
  induction l with
  | nil =>
    intro out h cf hcf
    rw [convertEntries] at h
    obtain rfl : ([] : List CloudFile) = out := by simpa using h
    exact absurd hcf (by simp)
  | cons e rest ih =>
    intro out h cf hcf
    rw [convertEntries] at h
    split at h
    · exact absurd h (by simp)
    · obtain ⟨entry, hentry, hconv⟩ := ih out h cf hcf
      exact ⟨entry, List.mem_cons_of_mem e hentry, hconv⟩
    · rename_i cf0 hconv0
      split at h
      · exact absurd h (by simp)
      · rename_i l0 hrest
        obtain rfl : cf0 :: l0 = out := by simpa using h
        rcases List.mem_cons.mp hcf with rfl | hmem
        · exact ⟨e, List.mem_cons_self e rest, hconv0⟩
        · obtain ⟨entry, hentry, hconv⟩ :=
            ih l0 hrest cf hmem
          exact ⟨entry, List.mem_cons_of_mem e hentry, hconv⟩

/-- C10: the parser returns the empty list when the response has no
multistatus root, and every record it does return originates, via the
per-entry conversion, from an entry whose href is non-empty and does not
end in '/' — folder entries are never included. -/
theorem parser_returns_only_files (ncUrl admin : Str) (unquote : Str → Str)
    (path_filter : Option (Str → Bool)) (user : Option Nat) :
    parse_cloud_files_search_response ncUrl admin unquote none path_filter user = Except.ok []
    ∧ ∀ (ms : Multistatus) (out : List CloudFile),
        parse_cloud_files_search_response ncUrl admin unquote (some ms) path_filter user
          = Except.ok out →
        ∀ cf ∈ out, ∃ entry ∈ ms.responses,
          entry.href ≠ [] ∧ endsWithSlash entry.href = false
          ∧ convertEntry ncUrl admin unquote path_filter user entry
              = Except.ok (some cf) := by
  refine ⟨rfl, ?_⟩
  intro ms out h cf hcf
  obtain ⟨entry, hentry, hconv⟩ :=
    convertEntries_sound ncUrl admin unquote path_filter user ms.responses.reverse out h cf hcf
  obtain ⟨hne, hslash⟩ :=
    convertEntry_ok_some_is_file ncUrl admin unquote path_filter user entry cf hconv
  exact ⟨entry, List.mem_reverse.mp hentry, hne, hslash, hconv⟩

/-- Witness for the parser theorem: a listing holding one folder entry and
one file entry yields exactly the file record, originating from the file
entry. -/
theorem parser_returns_only_files_witness :
    ∃ entry ∈ (⟨[⟨("/remote.php/dav/files/admin/Team/a.txt").data, some (("5").data)⟩,
        ⟨("/remote.php/dav/files/admin/Team/").data, none⟩]⟩ : Multistatus).responses,
      entry.href ≠ [] ∧ endsWithSlash entry.href = false
      ∧ convertEntry [] (("admin").data) (fun s => s) none none entry
          = Except.ok (some ⟨("a.txt").data, ("/f/5").data,
              ("/remote.php/dav/files/admin/Team/a.txt").data,
              ("Team").data, ("Team").data, ("/Team/a.txt").data⟩) :=
  (parser_returns_only_files [] (("admin").data) (fun s => s) none none).2
    ⟨[⟨("/remote.php/dav/files/admin/Team/a.txt").data, some (("5").data)⟩,
      ⟨("/remote.php/dav/files/admin/Team/").data, none⟩]⟩
    [⟨("a.txt").data, ("/f/5").data, ("/remote.php/dav/files/admin/Team/a.txt").data,
      ("Team").data, ("Team").data, ("/Team/a.txt").data⟩]
    (by decide)
    ⟨("a.txt").data, ("/f/5").data, ("/remote.php/dav/files/admin/Team/a.txt").data,
      ("Team").data, ("Team").data, ("/Team/a.txt").data⟩
    (by decide)

end ReadPathTheorems

end CosinnusCloud
